import Mathlib

/-!
Verification of the MOQT relay core (moq-go-server).

Shallow embedding of the Go sources: streams become explicit byte lists
(`Bytes`), Go strings become byte lists, fallible code returns
`Except String`, maps become association lists, and mutation becomes
explicit state passing.  Machine integers (`uint64`, `uint8`) are `Nat`
with explicit `% 2 ^ w` at every Go conversion that truncates.
-/

deriving instance DecidableEq for Except

namespace MoqGo

/-- A QUIC stream (or Go byte slice / string) is a list of byte values. -/
abbrev Bytes := List Nat

/-! ## quichelpers (quicbufferhelpers.go) -/

/-- Constants taken from the QUIC draft (quicbufferhelpers.go). -/
def maxVarInt1 : Nat := 63

def maxVarInt2 : Nat := 16383

def maxVarInt4 : Nat := 1073741823

def maxVarInt8 : Nat := 4611686018427387903

/-- `ReadByte`: reads one byte from the stream; a read on an exhausted
stream surfaces the terminal error (clean EOF). Returns the byte and the
remaining stream. -/
def ReadByte (s : Bytes) : Except String (Nat × Bytes) :=
  match s with
  | [] => .error "EOF"
  | b :: rest => .ok (b, rest)

/-- `ReadBytes` filling a buffer of length `n`: loops until the buffer is
full or a terminal error surfaces. Returns the bytes and the rest. -/
def ReadBytesN (n : Nat) (s : Bytes) : Except String (Bytes × Bytes) :=
  if n ≤ s.length then .ok (s.take n, s.drop n) else .error "EOF"

/-- `ReadVarint` (quicbufferhelpers.go lines 56-102): the first two bits of
the first byte encode the length. -/
def ReadVarint (s : Bytes) : Except String (Nat × Bytes) :=
  match ReadByte s with
  | .error e => .error e
  | .ok (firstByte, s1) =>
    let len := 1 <<< ((firstByte &&& 0xc0) >>> 6)
    let b1 := firstByte &&& (0xff - 0xc0)
    if len = 1 then .ok (b1, s1)
    else
      match ReadByte s1 with
      | .error e => .error e
      | .ok (b2, s2) =>
        if len = 2 then .ok (b2 + b1 <<< 8, s2)
        else
          match ReadByte s2 with
          | .error e => .error e
          | .ok (b3, s3) =>
            match ReadByte s3 with
            | .error e => .error e
            | .ok (b4, s4) =>
              if len = 4 then .ok (b4 + b3 <<< 8 + b2 <<< 16 + b1 <<< 24, s4)
              else
                match ReadByte s4 with
                | .error e => .error e
                | .ok (b5, s5) =>
                  match ReadByte s5 with
                  | .error e => .error e
                  | .ok (b6, s6) =>
                    match ReadByte s6 with
                    | .error e => .error e
                    | .ok (b7, s7) =>
                      match ReadByte s7 with
                      | .error e => .error e
                      | .ok (b8, s8) =>
                        .ok (b8 + b7 <<< 8 + b6 <<< 16 + b5 <<< 24 +
                             b4 <<< 32 + b3 <<< 40 + b2 <<< 48 + b1 <<< 56, s8)

/-- `WriteVarint` (quicbufferhelpers.go lines 133-149): picks the shortest
legal encoding; `uint8(x)` is modelled as `x % 256`. Values above 62 bits
fail. -/
def WriteVarint (i : Nat) : Except String Bytes :=
  if i ≤ maxVarInt1 then .ok [i % 256]
  else if i ≤ maxVarInt2 then .ok [(i >>> 8) % 256 ||| 0x40, i % 256]
  else if i ≤ maxVarInt4 then
    .ok [(i >>> 24) % 256 ||| 0x80, (i >>> 16) % 256, (i >>> 8) % 256, i % 256]
  else if i ≤ maxVarInt8 then
    .ok [(i >>> 56) % 256 ||| 0xc0, (i >>> 48) % 256, (i >>> 40) % 256,
         (i >>> 32) % 256, (i >>> 24) % 256, (i >>> 16) % 256, (i >>> 8) % 256,
         i % 256]
  else .error "doesn't fit into 62 bits"

/-- `VarIntLength` (quicbufferhelpers.go lines 118-131). -/
def VarIntLength (i : Nat) : Except String Nat :=
  if i ≤ maxVarInt1 then .ok 1
  else if i ≤ maxVarInt2 then .ok 2
  else if i ≤ maxVarInt4 then .ok 4
  else if i ≤ maxVarInt8 then .ok 8
  else .error "doesn't fit into 62 bits"

/-- `ReadString` (quicbufferhelpers.go lines 153-168): length varint,
bound check, then exactly that many raw bytes (Go strings are byte lists
here). -/
def ReadString (s : Bytes) (maxAllowedLength : Nat) : Except String (Bytes × Bytes) :=
  match ReadVarint s with
  | .error e => .error e
  | .ok (strLength, s1) =>
    if strLength > maxAllowedLength then
      .error "String length exceeds limit"
    else
      match ReadBytesN strLength s1 with
      | .error e => .error e
      | .ok (strBytes, s2) => .ok (strBytes, s2)

/-- `WriteString` (quicbufferhelpers.go lines 170-174): the length varint
followed by the raw bytes. The Go code ignores `WriteVarint`'s error
return, so on overflow the length prefix is simply absent; this function
is total. -/
def WriteString (str : Bytes) : Bytes :=
  (match WriteVarint str.length with
   | .ok bs => bs
   | .error _ => []) ++ str

end MoqGo

/-! ### Varint round-trip lemmas -/

namespace MoqGo

lemma readVarint_one (b : Nat) (hb : b < 64) (rest : Bytes) :
    ReadVarint (b :: rest) = .ok (b, rest) := by
  have h1 : ∀ c < 64, 1 <<< ((c &&& 0xc0) >>> 6) = 1 ∧ c &&& (0xff - 0xc0) = c := by
    decide
  simp only [ReadVarint, ReadByte, (h1 b hb).1, (h1 b hb).2, if_pos]

lemma readVarint_two (a b : Nat) (ha : a < 64) (rest : Bytes) :
    ReadVarint ((64 + a) :: b :: rest) = .ok (b + a <<< 8, rest) := by
  have h1 : ∀ c < 64, 1 <<< (((64 + c) &&& 0xc0) >>> 6) = 2 ∧
      (64 + c) &&& (0xff - 0xc0) = c := by decide
  simp only [ReadVarint, ReadByte, (h1 a ha).1, (h1 a ha).2]
  norm_num

lemma readVarint_four (a b c d : Nat) (ha : a < 64) (rest : Bytes) :
    ReadVarint ((128 + a) :: b :: c :: d :: rest) =
      .ok (d + c <<< 8 + b <<< 16 + a <<< 24, rest) := by
  have h1 : ∀ x < 64, 1 <<< (((128 + x) &&& 0xc0) >>> 6) = 4 ∧
      (128 + x) &&& (0xff - 0xc0) = x := by decide
  simp only [ReadVarint, ReadByte, (h1 a ha).1, (h1 a ha).2]
  norm_num

lemma readVarint_eight (a b c d e f g h : Nat) (ha : a < 64) (rest : Bytes) :
    ReadVarint ((192 + a) :: b :: c :: d :: e :: f :: g :: h :: rest) =
      .ok (h + g <<< 8 + f <<< 16 + e <<< 24 + d <<< 32 + c <<< 40 +
           b <<< 48 + a <<< 56, rest) := by
  have h1 : ∀ x < 64, 1 <<< (((192 + x) &&& 0xc0) >>> 6) = 8 ∧
      (192 + x) &&& (0xff - 0xc0) = x := by decide
  simp only [ReadVarint, ReadByte, (h1 a ha).1, (h1 a ha).2]
  norm_num

lemma lor_64 : ∀ a < 64, a ||| 64 = 64 + a := by decide

lemma lor_128 : ∀ a < 64, a ||| 128 = 128 + a := by decide

lemma lor_192 : ∀ a < 64, a ||| 192 = 192 + a := by decide

lemma writeVarint_one (v : Nat) (h : v ≤ 63) : WriteVarint v = .ok [v] := by
  have : v % 256 = v := Nat.mod_eq_of_lt (by omega)
  simp only [WriteVarint, maxVarInt1, if_pos h, this]

lemma writeVarint_two (v : Nat) (h1 : 63 < v) (h2 : v ≤ 16383) :
    WriteVarint v = .ok [64 + v / 256, v % 256] := by
  have hs : v >>> 8 = v / 256 := by
    rw [Nat.shiftRight_eq_div_pow]
  have hlt : v / 256 < 64 := by omega
  simp only [WriteVarint, maxVarInt1, maxVarInt2, if_neg (by omega : ¬ v ≤ 63),
    if_pos h2, hs, Nat.mod_eq_of_lt (show v / 256 < 256 by omega), lor_64 _ hlt]

lemma writeVarint_four (v : Nat) (h1 : 16383 < v) (h2 : v ≤ 1073741823) :
    WriteVarint v =
      .ok [128 + v / 2 ^ 24, v / 2 ^ 16 % 256, v / 2 ^ 8 % 256, v % 256] := by
  have hs24 : v >>> 24 = v / 2 ^ 24 := Nat.shiftRight_eq_div_pow v 24
  have hs16 : v >>> 16 = v / 2 ^ 16 := Nat.shiftRight_eq_div_pow v 16
  have hs8 : v >>> 8 = v / 2 ^ 8 := Nat.shiftRight_eq_div_pow v 8
  have hlt : v / 2 ^ 24 < 64 := by omega
  simp only [WriteVarint, maxVarInt1, maxVarInt2, maxVarInt4,
    if_neg (by omega : ¬ v ≤ 63), if_neg (by omega : ¬ v ≤ 16383), if_pos h2,
    hs24, hs16, hs8, Nat.mod_eq_of_lt (show v / 2 ^ 24 < 256 by omega),
    lor_128 _ hlt]

lemma writeVarint_eight (v : Nat) (h1 : 1073741823 < v) (h2 : v ≤ 4611686018427387903) :
    WriteVarint v =
      .ok [192 + v / 2 ^ 56, v / 2 ^ 48 % 256, v / 2 ^ 40 % 256, v / 2 ^ 32 % 256,
           v / 2 ^ 24 % 256, v / 2 ^ 16 % 256, v / 2 ^ 8 % 256, v % 256] := by
  have hs : ∀ k : Nat, v >>> k = v / 2 ^ k := fun k => Nat.shiftRight_eq_div_pow v k
  have hlt : v / 2 ^ 56 < 64 := by omega
  simp only [WriteVarint, maxVarInt1, maxVarInt2, maxVarInt4, maxVarInt8,
    if_neg (by omega : ¬ v ≤ 63), if_neg (by omega : ¬ v ≤ 16383),
    if_neg (by omega : ¬ v ≤ 1073741823), if_pos h2, hs,
    Nat.mod_eq_of_lt (show v / 2 ^ 56 < 256 by omega), lor_192 _ hlt]

end MoqGo

/-- C1: for every unsigned value v ≤ 2^62 - 1, decoding the bytes produced
by the varint encoder yields v back with the whole input consumed, and the
encoder picks the minimum legal encoding length (1 byte for v ≤ 63, 2 for
v ≤ 16383, 4 for v ≤ 1073741823, 8 for v ≤ 4611686018427387903); every v
exceeding 62 bits makes WriteVarint fail with an error instead of writing
bytes. -/
theorem varint_roundtrip_minimal (v : Nat) :
    (v ≤ 2 ^ 62 - 1 →
      ∃ bs, MoqGo.WriteVarint v = .ok bs ∧ MoqGo.ReadVarint bs = .ok (v, []) ∧
        bs.length = (if v ≤ 63 then 1 else if v ≤ 16383 then 2
          else if v ≤ 1073741823 then 4 else 8)) ∧
    (2 ^ 62 - 1 < v → MoqGo.WriteVarint v = .error "doesn't fit into 62 bits") := by
  constructor
  · intro h
    by_cases h1 : v ≤ 63
    · refine ⟨[v], MoqGo.writeVarint_one v h1, ?_, by simp [h1]⟩
      exact MoqGo.readVarint_one v (by omega) []
    · by_cases h2 : v ≤ 16383
      · refine ⟨_, MoqGo.writeVarint_two v (by omega) h2, ?_, by simp [h1, h2]⟩
        rw [MoqGo.readVarint_two (v / 256) (v % 256) (by omega) []]
        rw [Nat.shiftLeft_eq]
        congr 2
        omega
      · by_cases h4 : v ≤ 1073741823
        · refine ⟨_, MoqGo.writeVarint_four v (by omega) h4, ?_, by simp [h1, h2, h4]⟩
          rw [MoqGo.readVarint_four (v / 2 ^ 24) (v / 2 ^ 16 % 256)
            (v / 2 ^ 8 % 256) (v % 256) (by omega) []]
          simp only [Nat.shiftLeft_eq]
          congr 2
          omega
        · have h8 : v ≤ 4611686018427387903 := by omega
          refine ⟨_, MoqGo.writeVarint_eight v (by omega) h8, ?_, by simp [h1, h2, h4]⟩
          rw [MoqGo.readVarint_eight (v / 2 ^ 56) (v / 2 ^ 48 % 256)
            (v / 2 ^ 40 % 256) (v / 2 ^ 32 % 256) (v / 2 ^ 24 % 256)
            (v / 2 ^ 16 % 256) (v / 2 ^ 8 % 256) (v % 256) (by omega) []]
          simp only [Nat.shiftLeft_eq]
          congr 2
          omega
  · intro h
    simp only [MoqGo.WriteVarint, MoqGo.maxVarInt1, MoqGo.maxVarInt2,
      MoqGo.maxVarInt4, MoqGo.maxVarInt8]
    rw [if_neg (by omega), if_neg (by omega), if_neg (by omega), if_neg (by omega)]

/-- Witness for C1 at v = 16384 (first 4-byte value) and at v = 2^62
(first overflowing value). -/
theorem varint_roundtrip_minimal_witness :
    (∃ bs, MoqGo.WriteVarint 16384 = .ok bs ∧
      MoqGo.ReadVarint bs = .ok (16384, []) ∧
      bs.length = (if 16384 ≤ 63 then 1 else if 16384 ≤ 16383 then 2
        else if 16384 ≤ 1073741823 then 4 else 8)) ∧
    MoqGo.WriteVarint (2 ^ 62) = .error "doesn't fit into 62 bits" :=
  ⟨(varint_roundtrip_minimal 16384).1 (by norm_num),
   (varint_roundtrip_minimal (2 ^ 62)).2 (by norm_num)⟩

/-! ## moqhelpers (MOQT message codec, part_000) -/

namespace MoqGo

def MAX_PROTOCOL_VERSIONS : Nat := 10

def MAX_PARAMS : Nat := 256

def MOQ_MAX_STRING_LENGTH : Nat := 1024

/-- `MoqVersionDraft01`; `MOQ_SUPPORTED_VERSION` is this constant. -/
def MOQ_SUPPORTED_VERSION : Nat := 0xff000001

/-- `MoqParams` ids. -/
def MoqParamsRole : Nat := 0x0

def MoqParamsAuthorizationInfo : Nat := 0x2

/-- `MoqRole` values (Go `uint` constants). -/
def MoqRoleNotSet : Nat := 0

def MoqRolePublisher : Nat := 1

def MoqRoleSubscriber : Nat := 2

def MoqRoleBoth : Nat := 3

/-- `MoqLocationType` values. -/
def MoqLocationTypeNone : Nat := 0x0

/-- `MoqMessageType` ids. -/
def MoqIdMessageObject : Nat := 0x0

def MoqIdMessageClientSetup : Nat := 0x40

def MoqIdMessageServerSetup : Nat := 0x41

def MoqIdSubscribe : Nat := 0x3

def MoqIdSubscribeOk : Nat := 0x4

def MoqIdSubscribeError : Nat := 0x5

def MoqIdMessageAnnounce : Nat := 0x6

def MoqIdMessageAnnounceOk : Nat := 0x7

def MoqIdMessageAnnounceError : Nat := 0x8

def MoqIdMessageUnAnnounce : Nat := 0x9

def InternalId : Nat := 0xffff

/-- MOQT error codes (`MoqErrorCode`). -/
def NoError : Nat := 0x0

def ErrorGeneric : Nat := 0x1

def ErrorProtocolViolation : Nat := 0x3

/-- Subscribe error codes (`MoqErrorCodeSubscribe`). -/
def NoErrorSubscribe : Nat := 0x0

def ErrorSubscribeAddingTrack : Nat := 0x2

def ErrorSubscribeNoPublishers : Nat := 0x3

/-- `MoqError`: a session-terminating error code plus message. -/
structure MoqError where
  errCode : Nat := 0
  errMsg : String := ""
deriving DecidableEq

/-- `MoqLocation` = (type, value); Go zero value is (0, 0). -/
structure MoqLocation where
  type : Nat := 0
  value : Nat := 0
deriving DecidableEq

structure MoqMessageSetup where
  supportedClientVersions : List Nat := []
  role : Nat := 0
deriving DecidableEq

structure MoqMessageSetupResponse where
  version : Nat := 0
  role : Nat := 0
deriving DecidableEq

structure MoqMessageAnnounce where
  trackNamespace : Bytes := []
  authInfo : Bytes := []
deriving DecidableEq

structure MoqMessageSubscribe where
  trackNamespace : Bytes := []
  trackName : Bytes := []
  startGroup : MoqLocation := {}
  startObject : MoqLocation := {}
  endGroup : MoqLocation := {}
  endObject : MoqLocation := {}
  authInfo : Bytes := []
deriving DecidableEq

structure MoqMessageSubscribeOk where
  trackNamespace : Bytes := []
  trackName : Bytes := []
  trackId : Nat := 0
  expires : Nat := 0
deriving DecidableEq

structure MoqMessageSubscribeError where
  trackNamespace : Bytes := []
  trackName : Bytes := []
  errCode : Nat := 0
  errMsg : Bytes := []
deriving DecidableEq

/-- `MoqObjectHeader` (moqobject.go). -/
structure MoqObjectHeader where
  trackId : Nat := 0
  groupSequence : Nat := 0
  objectSequence : Nat := 0
  sendOrder : Nat := 0
deriving DecidableEq

/-- The parameter map built by `readParameters`: the Go code stores
entries in a `map[uint64]any`, but only the Role (0x0, a varint) and
AuthorizationInfo (0x2, a string) entries are ever written or read, so the
map is modelled by its two relevant projections. -/
structure MoqParamsMap where
  role : Option Nat := none
  authInfo : Option Bytes := none
deriving DecidableEq

/-- The parameter loop of `readParameters` (part_000 lines 717-757),
structurally recursive on the remaining parameter count. -/
def readParametersLoop (n : Nat) (acc : MoqParamsMap) (s : Bytes) :
    Except String (MoqParamsMap × Bytes) :=
  match n with
  | 0 => .ok (acc, s)
  | n + 1 =>
    match ReadVarint s with
    | .error _ => .error "MOQ parameters reading paramId"
    | .ok (paramId, s1) =>
      if paramId = MoqParamsAuthorizationInfo then
        match ReadString s1 MOQ_MAX_STRING_LENGTH with
        | .error _ => .error "MOQ parameters reading auth info"
        | .ok (authInfo, s2) =>
          readParametersLoop n { acc with authInfo := some authInfo } s2
      else if paramId = MoqParamsRole then
        match ReadVarint s1 with
        | .error _ => .error "MOQ parameters role reading param length info"
        | .ok (_, s2) =>
          match ReadVarint s2 with
          | .error _ => .error "MOQ parameters reading role"
          | .ok (role, s3) =>
            readParametersLoop n { acc with role := some role } s3
      else
        match ReadVarint s1 with
        | .error _ => .error "MOQ parameters reading param length info"
        | .ok (length, s2) =>
          match ReadBytesN length s2 with
          | .error _ => .error "MOQ parameters reading unknown param blob"
          | .ok (_, s3) => readParametersLoop n acc s3

/-- `readParameters` (part_000 lines 706-759). -/
def readParameters (s : Bytes) : Except String (MoqParamsMap × Bytes) :=
  match ReadVarint s with
  | .error _ => .error "MOQ parameters reading number of params"
  | .ok (numParamsLength, s1) =>
    if numParamsLength > MAX_PARAMS then
      .error "MOQ parameters exceeded max number of params"
    else readParametersLoop numParamsLength {} s1

/-- `receiveSubscribeOk` (part_000 lines 223-255). -/
def receiveSubscribeOk (s : Bytes) : Except String (MoqMessageSubscribeOk × Bytes) :=
  match ReadString s MOQ_MAX_STRING_LENGTH with
  | .error _ => .error "MOQ SUBSCRIBE OK reading TrackNamespace"
  | .ok (trackNamespace, s1) =>
    match ReadString s1 MOQ_MAX_STRING_LENGTH with
    | .error _ => .error "MOQ SUBSCRIBE OK reading trackName"
    | .ok (trackName, s2) =>
      match ReadVarint s2 with
      | .error _ => .error "MOQ SUBSCRIBE OK reading TrackId"
      | .ok (trackId, s3) =>
        match ReadVarint s3 with
        | .error _ => .error "MOQ SUBSCRIBE OK reading expires"
        | .ok (expires, s4) =>
          .ok ({ trackNamespace := trackNamespace, trackName := trackName,
                 trackId := trackId, expires := expires }, s4)

/-- `receiveSubscribe` (part_000 lines 257-345), field assignments exactly
as in the source. Note line 301 of the source: the parsed StartObject
value is assigned to `moqSubscribe.StartGroup.Value`, not to
`StartObject.Value`. -/
def receiveSubscribe (s : Bytes) : Except String (MoqMessageSubscribe × Bytes) :=
  match ReadString s MOQ_MAX_STRING_LENGTH with
  | .error _ => .error "MOQ SUBSCRIBE reading TrackNamespace"
  | .ok (trackNamespace, s1) =>
    match ReadString s1 MOQ_MAX_STRING_LENGTH with
    | .error _ => .error "MOQ SUBSCRIBE reading trackName"
    | .ok (trackName, s2) =>
      match ReadVarint s2 with
      | .error _ => .error "MOQ SUBSCRIBE reading start group mode"
      | .ok (startGroupMode, s3) =>
        let m0 : MoqMessageSubscribe :=
          { trackNamespace := trackNamespace, trackName := trackName,
            startGroup := { type := startGroupMode, value := 0 } }
        match (if startGroupMode ≠ MoqLocationTypeNone then
                 (ReadVarint s3).map (fun (v, r) =>
                   ({ m0 with startGroup := { m0.startGroup with value := v } }, r))
               else .ok (m0, s3)) with
        | .error _ => .error "MOQ SUBSCRIBE reading start group value"
        | .ok (m1, s4) =>
          match ReadVarint s4 with
          | .error _ => .error "MOQ SUBSCRIBE reading start object mode"
          | .ok (startObjectMode, s5) =>
            let m2 := { m1 with startObject := { type := startObjectMode, value := 0 } }
            -- source line 301: the value read for StartObject is stored in
            -- StartGroup.Value
            match (if startObjectMode ≠ MoqLocationTypeNone then
                     (ReadVarint s5).map (fun (v, r) =>
                       ({ m2 with startGroup := { m2.startGroup with value := v } }, r))
                   else .ok (m2, s5)) with
            | .error _ => .error "MOQ SUBSCRIBE reading start object value"
            | .ok (m3, s6) =>
              match ReadVarint s6 with
              | .error _ => .error "MOQ SUBSCRIBE reading end group mode"
              | .ok (endGroupMode, s7) =>
                let m4 := { m3 with endGroup := { type := endGroupMode, value := 0 } }
                match (if endGroupMode ≠ MoqLocationTypeNone then
                         (ReadVarint s7).map (fun (v, r) =>
                           ({ m4 with endGroup := { m4.endGroup with value := v } }, r))
                       else .ok (m4, s7)) with
                | .error _ => .error "MOQ SUBSCRIBE reading end group value"
                | .ok (m5, s8) =>
                  match ReadVarint s8 with
                  | .error _ => .error "MOQ SUBSCRIBE reading end object mode"
                  | .ok (endObjectMode, s9) =>
                    let m6 := { m5 with endObject := { type := endObjectMode, value := 0 } }
                    match (if endObjectMode ≠ MoqLocationTypeNone then
                             (ReadVarint s9).map (fun (v, r) =>
                               ({ m6 with endObject := { m6.endObject with value := v } }, r))
                           else .ok (m6, s9)) with
                    | .error _ => .error "MOQ SUBSCRIBE reading end object value"
                    | .ok (m7, s10) =>
                      match readParameters s10 with
                      | .error _ => .error "MOQ SUBSCRIBE reading parameters"
                      | .ok (params, s11) =>
                        match params.authInfo with
                        | some authInfo => .ok ({ m7 with authInfo := authInfo }, s11)
                        | none => .ok (m7, s11)

/-- `receiveAnnounce` (part_000 lines 347-368). -/
def receiveAnnounce (s : Bytes) : Except String (MoqMessageAnnounce × Bytes) :=
  match ReadString s MOQ_MAX_STRING_LENGTH with
  | .error _ => .error "MOQ ANNOUNCE reading TrackNamespace"
  | .ok (trackNamespace, s1) =>
    match readParameters s1 with
    | .error _ => .error "MOQ ANNOUNCE reading parameters"
    | .ok (params, s2) =>
      match params.authInfo with
      | some authInfo => .ok ({ trackNamespace := trackNamespace, authInfo := authInfo }, s2)
      | none => .ok ({ trackNamespace := trackNamespace }, s2)

/-- The version loop of `receiveSetUp` (part_000 lines 381-388). -/
def receiveSetUpVersionsLoop (n : Nat) (acc : List Nat) (s : Bytes) :
    Except String (List Nat × Bytes) :=
  match n with
  | 0 => .ok (acc, s)
  | n + 1 =>
    match ReadVarint s with
    | .error _ => .error "MOQ SETUP reading version"
    | .ok (version, s1) => receiveSetUpVersionsLoop n (acc ++ [version]) s1

/-- `receiveSetUp` (part_000 lines 370-401). -/
def receiveSetUp (s : Bytes) : Except String (MoqMessageSetup × Bytes) :=
  match ReadVarint s with
  | .error _ => .error "MOQ SETUP reading versions length"
  | .ok (versionsLength, s1) =>
    if versionsLength > MAX_PROTOCOL_VERSIONS then
      .error "MOQ SETUP max protocol versions exceeded"
    else
      match receiveSetUpVersionsLoop versionsLength [] s1 with
      | .error e => .error e
      | .ok (versions, s2) =>
        match readParameters s2 with
        | .error _ => .error "MOQ SETUP reading parameters"
        | .ok (params, s3) =>
          match params.role with
          | some role => .ok ({ supportedClientVersions := versions, role := role }, s3)
          | none => .ok ({ supportedClientVersions := versions }, s3)

/-- `receiveObjectHeader` (part_000 lines 403-435). -/
def receiveObjectHeader (s : Bytes) : Except String (MoqObjectHeader × Bytes) :=
  match ReadVarint s with
  | .error _ => .error "MOQ OBJECT reading track id"
  | .ok (trackId, s1) =>
    match ReadVarint s1 with
    | .error _ => .error "MOQ OBJECT reading group sequence"
    | .ok (groupSeq, s2) =>
      match ReadVarint s2 with
      | .error _ => .error "MOQ OBJECT reading object sequence"
      | .ok (objSeq, s3) =>
        match ReadVarint s3 with
        | .error _ => .error "MOQ OBJECT reading object send order"
        | .ok (sendOrder, s4) =>
          .ok ({ trackId := trackId, groupSequence := groupSeq,
                 objectSequence := objSeq, sendOrder := sendOrder }, s4)

/-- The decoded message payload returned by `ReceiveMessage` (Go returns
`interface{}`). -/
inductive MoqMessage where
  | objectHeader (h : MoqObjectHeader)
  | setup (m : MoqMessageSetup)
  | announce (m : MoqMessageAnnounce)
  | subscribe (m : MoqMessageSubscribe)
  | subscribeOk (m : MoqMessageSubscribeOk)
deriving DecidableEq

/-- `ReceiveMessage` (part_000 lines 199-221): reads the leading message
type varint and dispatches; every type outside the five handled ones fails
with the unsupported-message-type error. (Go returns the message type even
when the body receiver errors; here the error case carries only the
message.) -/
def ReceiveMessage (s : Bytes) : Except String (MoqMessage × Nat × Bytes) :=
  match ReadVarint s with
  | .error _ => .error "MOQ reading message type"
  | .ok (msgType, s1) =>
    if msgType = MoqIdMessageObject then
      (receiveObjectHeader s1).map (fun (m, r) => (.objectHeader m, msgType, r))
    else if msgType = MoqIdMessageClientSetup then
      (receiveSetUp s1).map (fun (m, r) => (.setup m, msgType, r))
    else if msgType = MoqIdMessageAnnounce then
      (receiveAnnounce s1).map (fun (m, r) => (.announce m, msgType, r))
    else if msgType = MoqIdSubscribe then
      (receiveSubscribe s1).map (fun (m, r) => (.subscribe m, msgType, r))
    else if msgType = MoqIdSubscribeOk then
      (receiveSubscribeOk s1).map (fun (m, r) => (.subscribeOk m, msgType, r))
    else .error ("MOQ not supported message type " ++ toString msgType)

/-- `CreateSetupResponse` (part_000 lines 179-197). -/
def CreateSetupResponse (moqSetup : MoqMessageSetup) :
    Except String MoqMessageSetupResponse :=
  if ¬ MOQ_SUPPORTED_VERSION ∈ moqSetup.supportedClientVersions then
    .error "MOQ SETUP not supported version"
  else if moqSetup.role = MoqRolePublisher then
    .ok { version := MOQ_SUPPORTED_VERSION, role := MoqRoleSubscriber }
  else if moqSetup.role = MoqRoleSubscriber then
    .ok { version := MOQ_SUPPORTED_VERSION, role := MoqRolePublisher }
  else .error "MOQ SETUP only publisher or subscriber connections supported for now"

/-- The repeated location block of `SendSubscribe` (part_000 lines
578-621): the type varint, then the value varint iff type ≠ None. -/
def writeLocationBlock (loc : MoqLocation) : Except String Bytes :=
  match WriteVarint loc.type with
  | .error e => .error e
  | .ok bt =>
    if loc.type ≠ MoqLocationTypeNone then
      match WriteVarint loc.value with
      | .error e => .error e
      | .ok bv => .ok (bt ++ bv)
    else .ok bt

/-- `SendSubscribe` (part_000 lines 564-639). -/
def SendSubscribe (m : MoqMessageSubscribe) : Except String Bytes :=
  match WriteVarint MoqIdSubscribe with
  | .error e => .error e
  | .ok b0 =>
    match writeLocationBlock m.startGroup with
    | .error e => .error e
    | .ok l1 =>
      match writeLocationBlock m.startObject with
      | .error e => .error e
      | .ok l2 =>
        match writeLocationBlock m.endGroup with
        | .error e => .error e
        | .ok l3 =>
          match writeLocationBlock m.endObject with
          | .error e => .error e
          | .ok l4 =>
            match WriteVarint 1 with
            | .error e => .error e
            | .ok p0 =>
              match WriteVarint MoqParamsAuthorizationInfo with
              | .error e => .error e
              | .ok p1 =>
                .ok (b0 ++ WriteString m.trackNamespace ++
                     WriteString m.trackName ++ l1 ++ l2 ++ l3 ++ l4 ++
                     p0 ++ p1 ++ WriteString m.authInfo)

/-- `SendSubscribeOk` (part_000 lines 534-562). -/
def SendSubscribeOk (m : MoqMessageSubscribeOk) : Except String Bytes :=
  match WriteVarint MoqIdSubscribeOk with
  | .error e => .error e
  | .ok b0 =>
    match WriteVarint m.trackId with
    | .error e => .error e
    | .ok b1 =>
      match WriteVarint m.expires with
      | .error e => .error e
      | .ok b2 =>
        .ok (b0 ++ WriteString m.trackNamespace ++ WriteString m.trackName ++
             b1 ++ b2)

/-- `SendSubscribeError` (part_000 lines 641-664). -/
def SendSubscribeError (m : MoqMessageSubscribeError) : Except String Bytes :=
  match WriteVarint MoqIdSubscribeError with
  | .error e => .error e
  | .ok b0 =>
    match WriteVarint m.errCode with
    | .error e => .error e
    | .ok b1 =>
      .ok (b0 ++ WriteString m.trackNamespace ++ WriteString m.trackName ++
           b1 ++ WriteString m.errMsg)

end MoqGo

/-- C2: decoding a SUBSCRIBE does NOT store each parsed location value in
its own field: at the failing input whose StartObject is (Absolute, 1),
encoding with SendSubscribe and decoding with receiveSubscribe returns
StartObject = (Absolute, 0) and StartGroup = (None, 1) — the StartObject
value is stored in StartGroup.Value (source line 301) — so the decoded
message differs from the original. -/
theorem subscribe_decode_misassigns_startObject_value :
    MoqGo.SendSubscribe
        { trackNamespace := [], trackName := [],
          startGroup := { type := 0, value := 0 },
          startObject := { type := 1, value := 1 },
          endGroup := { type := 0, value := 0 },
          endObject := { type := 0, value := 0 }, authInfo := [] } =
      .ok [3, 0, 0, 0, 1, 1, 0, 0, 1, 2, 0] ∧
    MoqGo.receiveSubscribe [0, 0, 0, 1, 1, 0, 0, 1, 2, 0] =
      .ok ({ trackNamespace := [], trackName := [],
             startGroup := { type := 0, value := 1 },
             startObject := { type := 1, value := 0 },
             endGroup := { type := 0, value := 0 },
             endObject := { type := 0, value := 0 }, authInfo := [] }, []) ∧
    ({ trackNamespace := [], trackName := [],
       startGroup := { type := 0, value := 1 },
       startObject := { type := 1, value := 0 },
       endGroup := { type := 0, value := 0 },
       endObject := { type := 0, value := 0 },
       authInfo := [] } : MoqGo.MoqMessageSubscribe) ≠
      { trackNamespace := [], trackName := [],
        startGroup := { type := 0, value := 0 },
        startObject := { type := 1, value := 1 },
        endGroup := { type := 0, value := 0 },
        endObject := { type := 0, value := 0 }, authInfo := [] } := by
  refine ⟨by decide, by decide, by decide⟩

/-- C3 counterexample: a CLIENT_SETUP advertising the supported version
with role Both (3) is rejected by CreateSetupResponse, not accepted
unchanged. -/
theorem createSetupResponse_rejects_both :
    MoqGo.CreateSetupResponse
        { supportedClientVersions := [0xff000001], role := MoqGo.MoqRoleBoth } =
      .error "MOQ SETUP only publisher or subscriber connections supported for now" := by
  decide

/-- C3 (amended): for a CLIENT_SETUP whose advertised versions contain the
supported version 0xff000001, CreateSetupResponse succeeds with the role
inverted for Publisher and Subscriber, and fails for every other role —
including Both; it also fails whenever the supported version is absent. -/
theorem createSetupResponse_spec (m : MoqGo.MoqMessageSetup) :
    (MoqGo.MOQ_SUPPORTED_VERSION ∈ m.supportedClientVersions →
      (m.role = MoqGo.MoqRolePublisher →
        MoqGo.CreateSetupResponse m =
          .ok { version := MoqGo.MOQ_SUPPORTED_VERSION,
                role := MoqGo.MoqRoleSubscriber }) ∧
      (m.role = MoqGo.MoqRoleSubscriber →
        MoqGo.CreateSetupResponse m =
          .ok { version := MoqGo.MOQ_SUPPORTED_VERSION,
                role := MoqGo.MoqRolePublisher }) ∧
      (m.role ≠ MoqGo.MoqRolePublisher → m.role ≠ MoqGo.MoqRoleSubscriber →
        MoqGo.CreateSetupResponse m =
          .error "MOQ SETUP only publisher or subscriber connections supported for now")) ∧
    (¬ MoqGo.MOQ_SUPPORTED_VERSION ∈ m.supportedClientVersions →
      MoqGo.CreateSetupResponse m = .error "MOQ SETUP not supported version") := by
  unfold MoqGo.CreateSetupResponse
  constructor
  · intro hv
    rw [if_neg (by simpa using hv)]
    refine ⟨fun h => ?_, fun h => ?_, fun h1 h2 => ?_⟩
    · rw [if_pos h]
    · rw [if_neg (by simp [h, MoqGo.MoqRolePublisher, MoqGo.MoqRoleSubscriber]), if_pos h]
    · rw [if_neg h1, if_neg h2]
  · intro hv
    rw [if_pos (by simpa using hv)]

/-- Witness for C3's amended theorem: a Publisher CLIENT_SETUP with the
supported version gets role Subscriber back, and a Both CLIENT_SETUP is
rejected. -/
theorem createSetupResponse_spec_witness :
    MoqGo.CreateSetupResponse
        { supportedClientVersions := [0xff000001], role := MoqGo.MoqRolePublisher } =
      .ok { version := MoqGo.MOQ_SUPPORTED_VERSION, role := MoqGo.MoqRoleSubscriber } ∧
    MoqGo.CreateSetupResponse
        { supportedClientVersions := [0xff000001], role := MoqGo.MoqRoleBoth } =
      .error "MOQ SETUP only publisher or subscriber connections supported for now" :=
  ⟨((createSetupResponse_spec _).1 (by decide)).1 rfl,
   (((createSetupResponse_spec _).1 (by decide)).2.2 (by decide) (by decide))⟩

/-- C5 counterexample: a SUBSCRIBE_ERROR message (msgType 0x05) with a
well-formed body (empty trackNamespace and trackName, errCode 0, empty
reason) is one of the ten recognized framing-table types, yet
ReceiveMessage fails on it with the unsupported-message-type error. -/
theorem receiveMessage_rejects_subscribeError :
    MoqGo.ReceiveMessage [0x05, 0, 0, 0, 0] =
      .error "MOQ not supported message type 5" := by
  decide

/-- C5 (amended): ReceiveMessage decodes without error exactly the five
types OBJECT 0x00, SUBSCRIBE 0x03, SUBSCRIBE_OK 0x04, ANNOUNCE 0x06 and
CLIENT_SETUP 0x40 given a well-formed body (one its body receiver
accepts), and fails with the unsupported-message-type error for every
other msgType — including the remaining recognized framing-table types
SUBSCRIBE_ERROR 0x05, ANNOUNCE_OK 0x07, ANNOUNCE_ERROR 0x08, UNANNOUNCE
0x09 and SERVER_SETUP 0x41. -/
theorem receiveMessage_dispatch :
    (∀ rest m r, MoqGo.receiveObjectHeader rest = .ok (m, r) →
      MoqGo.ReceiveMessage (0x00 :: rest) = .ok (.objectHeader m, 0x00, r)) ∧
    (∀ rest m r, MoqGo.receiveSubscribe rest = .ok (m, r) →
      MoqGo.ReceiveMessage (0x03 :: rest) = .ok (.subscribe m, 0x03, r)) ∧
    (∀ rest m r, MoqGo.receiveSubscribeOk rest = .ok (m, r) →
      MoqGo.ReceiveMessage (0x04 :: rest) = .ok (.subscribeOk m, 0x04, r)) ∧
    (∀ rest m r, MoqGo.receiveAnnounce rest = .ok (m, r) →
      MoqGo.ReceiveMessage (0x06 :: rest) = .ok (.announce m, 0x06, r)) ∧
    (∀ rest m r, MoqGo.receiveSetUp rest = .ok (m, r) →
      MoqGo.ReceiveMessage (0x40 :: 0x40 :: rest) = .ok (.setup m, 0x40, r)) ∧
    (∀ s t rest, MoqGo.ReadVarint s = .ok (t, rest) →
      t ≠ 0x00 → t ≠ 0x03 → t ≠ 0x04 → t ≠ 0x06 → t ≠ 0x40 →
      MoqGo.ReceiveMessage s =
        .error ("MOQ not supported message type " ++ toString t)) := by
  have hone : ∀ (t : Nat) (rest : MoqGo.Bytes), t < 64 →
      MoqGo.ReadVarint (t :: rest) = .ok (t, rest) := fun t rest ht =>
    MoqGo.readVarint_one t ht rest
  have hsetup : ∀ rest : MoqGo.Bytes,
      MoqGo.ReadVarint (0x40 :: 0x40 :: rest) = .ok (0x40, rest) := by
    intro rest
    have := MoqGo.readVarint_two 0 0x40 (by omega) rest
    simpa using this
  refine ⟨?_, ?_, ?_, ?_, ?_, ?_⟩
  · intro rest m r h
    simp [MoqGo.ReceiveMessage, Except.map, hone 0x00 rest (by omega), h,
      MoqGo.MoqIdMessageObject]
  · intro rest m r h
    simp [MoqGo.ReceiveMessage, Except.map, hone 0x03 rest (by omega), h,
      MoqGo.MoqIdMessageObject, MoqGo.MoqIdMessageClientSetup,
      MoqGo.MoqIdMessageAnnounce, MoqGo.MoqIdSubscribe]
  · intro rest m r h
    simp [MoqGo.ReceiveMessage, Except.map, hone 0x04 rest (by omega), h,
      MoqGo.MoqIdMessageObject, MoqGo.MoqIdMessageClientSetup,
      MoqGo.MoqIdMessageAnnounce, MoqGo.MoqIdSubscribe, MoqGo.MoqIdSubscribeOk]
  · intro rest m r h
    simp [MoqGo.ReceiveMessage, Except.map, hone 0x06 rest (by omega), h,
      MoqGo.MoqIdMessageObject, MoqGo.MoqIdMessageClientSetup,
      MoqGo.MoqIdMessageAnnounce]
  · intro rest m r h
    simp [MoqGo.ReceiveMessage, Except.map, hsetup rest, h,
      MoqGo.MoqIdMessageObject, MoqGo.MoqIdMessageClientSetup]
  · intro s t rest h h0 h3 h4 h6 h40
    simp [MoqGo.ReceiveMessage, h, MoqGo.MoqIdMessageObject,
      MoqGo.MoqIdMessageClientSetup, MoqGo.MoqIdMessageAnnounce,
      MoqGo.MoqIdSubscribe, MoqGo.MoqIdSubscribeOk, h0, h3, h4, h6, h40]

/-- Witness for C5's amended theorem: a well-formed OBJECT header decodes
through ReceiveMessage, and msgType 0x07 (ANNOUNCE_OK) is rejected. -/
theorem receiveMessage_dispatch_witness :
    MoqGo.ReceiveMessage [0x00, 1, 2, 3, 4] =
      .ok (.objectHeader { trackId := 1, groupSequence := 2,
                           objectSequence := 3, sendOrder := 4 }, 0x00, []) ∧
    MoqGo.ReceiveMessage [0x07] =
      .error ("MOQ not supported message type " ++ toString 7) :=
  ⟨receiveMessage_dispatch.1 [1, 2, 3, 4] _ [] (by decide),
   receiveMessage_dispatch.2.2.2.2.2 [0x07] 7 []
     (MoqGo.readVarint_one 7 (by omega) []) (by decide) (by decide) (by decide)
     (by decide) (by decide)⟩

/-! ## moqobject (moqobject.go) -/

namespace MoqGo

def READ_BLOCK_SIZE_BYTES : Nat := 1024

/-- `MoqObject` (moqobject.go lines 24-38); `time.Now()` timestamps are
modelled as explicit `Nat` instants. -/
structure MoqObject where
  header : MoqObjectHeader
  receivedAt : Nat
  maxAgeS : Nat
  buffer : Bytes
  eof : Bool
deriving DecidableEq

/-- `moqobject.New` (moqobject.go lines 51-55): fresh empty buffer, eof
false. -/
def MoqObject.new (objHeader : MoqObjectHeader) (maxAgeS : Nat) (now : Nat) :
    MoqObject :=
  { header := objHeader, receivedAt := now, maxAgeS := maxAgeS,
    buffer := [], eof := false }

/-- `moqMessageObjectReader.Read` (moqobject.go lines 101-114) over a
fixed object snapshot: given the reader offset and the destination buffer
length, returns ((bytes copied, error), new offset). `io.EOF` is the
`some "EOF"` error. -/
def readerRead (obj : MoqObject) (offset : Nat) (pLen : Nat) :
    (Nat × Option String) × Nat :=
  if obj.buffer.length ≤ offset then
    if obj.eof then ((0, some "EOF"), offset) else ((0, none), offset)
  else
    let n := min pLen (obj.buffer.length - offset)
    ((n, none), offset + n)

/-- The payload-copy loop of `SendObject` (part_000 lines 689-700),
fuel-indexed: `none` means the loop has not exited within `fuel`
iterations; `some payload` means it exited (the reader returned a non-nil
result) having written `payload`. -/
def sendObjectLoop (obj : MoqObject) (fuel : Nat) (offset : Nat) (acc : Bytes) :
    Option Bytes :=
  match fuel with
  | 0 => none
  | fuel + 1 =>
    match readerRead obj offset READ_BLOCK_SIZE_BYTES with
    | ((readBytes, errRead), offset2) =>
      match errRead with
      | some _ =>
        some (if 0 < readBytes then
            acc ++ ((obj.buffer.drop offset).take readBytes)
          else acc)
      | none =>
        sendObjectLoop obj fuel offset2
          (if 0 < readBytes then
            acc ++ ((obj.buffer.drop offset).take readBytes)
          else acc)

/-- `SendObject` (part_000 lines 666-702), fuel-indexed: writes the OBJECT
header varints (each may fail for values above 62 bits, ending SendObject
with that error), then runs the payload-copy loop. `none` means SendObject
has not terminated within `fuel` loop iterations. -/
def SendObject (obj : MoqObject) (fuel : Nat) : Option (Except String Bytes) :=
  match WriteVarint MoqIdMessageObject with
  | .error e => some (.error e)
  | .ok b0 =>
    match WriteVarint obj.header.trackId with
    | .error e => some (.error e)
    | .ok b1 =>
      match WriteVarint obj.header.groupSequence with
      | .error e => some (.error e)
      | .ok b2 =>
        match WriteVarint obj.header.objectSequence with
        | .error e => some (.error e)
        | .ok b3 =>
          match WriteVarint obj.header.sendOrder with
          | .error e => some (.error e)
          | .ok b4 =>
            match sendObjectLoop obj fuel 0 [] with
            | none => none
            | some payload => some (.ok (b0 ++ b1 ++ b2 ++ b3 ++ b4 ++ payload))

lemma writeVarint_ok_of_le (i : Nat) (h : i ≤ maxVarInt8) :
    ∃ bs, WriteVarint i = .ok bs := by
  unfold WriteVarint
  by_cases h1 : i ≤ maxVarInt1
  · exact ⟨_, by rw [if_pos h1]⟩
  · by_cases h2 : i ≤ maxVarInt2
    · exact ⟨_, by rw [if_neg h1, if_pos h2]⟩
    · by_cases h4 : i ≤ maxVarInt4
      · exact ⟨_, by rw [if_neg h1, if_neg h2, if_pos h4]⟩
      · exact ⟨_, by rw [if_neg h1, if_neg h2, if_neg h4, if_pos h]⟩

end MoqGo

/-! ## moqmessageobjects (moqmessageobjects.go): the object cache -/

namespace MoqGo

/-- Go map lookup over an association-list model. -/
def lookupA {α β : Type} [DecidableEq α] (l : List (α × β)) (k : α) : Option β :=
  match l with
  | [] => none
  | (k', v) :: rest => if k' = k then some v else lookupA rest k

/-- Go map assignment `m[k] = v` over an association-list model: replaces
every entry at `k`, or appends when absent. -/
def insertA {α β : Type} [DecidableEq α] (l : List (α × β)) (k : α) (v : β) :
    List (α × β) :=
  if l.any (fun p => p.1 = k) then
    l.map (fun p => if p.1 = k then (k, v) else p)
  else l ++ [(k, v)]

lemma lookupA_map_set {α β : Type} [DecidableEq α]
    (l : List (α × β)) (k : α) (v : β) (h : l.any (fun p => p.1 = k) = true) :
    lookupA (l.map fun p => if p.1 = k then (k, v) else p) k = some v := by
  induction l with
  | nil => simp at h
  | cons p rest ih =>
    simp only [List.map_cons]
    by_cases hp : p.1 = k
    · rw [if_pos hp]
      simp [lookupA]
    · rw [if_neg hp]
      have hr : rest.any (fun q => q.1 = k) = true := by
        simpa [List.any_cons, hp] using h
      simp [lookupA, hp, ih hr]

lemma lookupA_append_single {α β : Type} [DecidableEq α]
    (l : List (α × β)) (k : α) (v : β) (h : l.any (fun p => p.1 = k) = false) :
    lookupA (l ++ [(k, v)]) k = some v := by
  induction l with
  | nil => simp [lookupA]
  | cons p rest ih =>
    simp only [List.any_cons, Bool.or_eq_false_iff, decide_eq_false_iff_not] at h
    simp only [List.cons_append, lookupA, if_neg h.1]
    exact ih h.2

lemma lookupA_insertA_self {α β : Type} [DecidableEq α]
    (l : List (α × β)) (k : α) (v : β) :
    lookupA (insertA l k v) k = some v := by
  unfold insertA
  by_cases h : l.any (fun p => p.1 = k)
  · rw [if_pos h]
    exact lookupA_map_set l k v h
  · rw [if_neg h]
    refine lookupA_append_single l k v ?_
    cases hb : l.any (fun p => p.1 = k)
    · rfl
    · exact absurd hb h

/-- The cache map of `MoqMessageObjects` (its `dataMap`). -/
abbrev MoqMessageObjects := List (Bytes × MoqObject)

/-- `MoqMessageObjects.Create` (moqmessageobjects.go lines 41-55): fails on
an existing non-EOF entry leaving the map untouched; otherwise installs a
fresh object, replacing any EOF entry. Returns the Go result together with
the (possibly updated) map. -/
def Create (moqtObjs : MoqMessageObjects) (cacheKey : Bytes)
    (objHeader : MoqObjectHeader) (defObjExpirationS : Nat) (now : Nat) :
    Except String MoqObject × MoqMessageObjects :=
  match lookupA moqtObjs cacheKey with
  | some foundObj =>
    if foundObj.eof = false then
      (.error "We can NOT override on open object", moqtObjs)
    else
      let moqObj := MoqObject.new objHeader defObjExpirationS now
      (.ok moqObj, insertA moqtObjs cacheKey moqObj)
  | none =>
    let moqObj := MoqObject.new objHeader defObjExpirationS now
    (.ok moqObj, insertA moqtObjs cacheKey moqObj)

/-- `MoqMessageObjects.Get` (moqmessageobjects.go lines 57-64). -/
def Get (moqtObjs : MoqMessageObjects) (cacheKey : Bytes) : Option MoqObject :=
  lookupA moqtObjs cacheKey

end MoqGo

/-- C7: Create fails with the OverwriteOpenObject error iff the cache
already holds an entry at the key whose eof flag is false, and on that
failure the mapping is unchanged; in every other case (no prior entry, or
prior entry with eof = true) it installs a fresh empty Object at the key —
replacing any eof = true entry — and a subsequent Get at the key returns
exactly that Object. -/
theorem cache_create_spec (cache : MoqGo.MoqMessageObjects) (key : MoqGo.Bytes)
    (hdr : MoqGo.MoqObjectHeader) (ttl now : Nat) :
    ((∃ o, MoqGo.lookupA cache key = some o ∧ o.eof = false) →
      MoqGo.Create cache key hdr ttl now =
        (.error "We can NOT override on open object", cache)) ∧
    ((∀ o, MoqGo.lookupA cache key = some o → o.eof = true) →
      MoqGo.Create cache key hdr ttl now =
        (.ok (MoqGo.MoqObject.new hdr ttl now),
         MoqGo.insertA cache key (MoqGo.MoqObject.new hdr ttl now)) ∧
      MoqGo.Get (MoqGo.insertA cache key (MoqGo.MoqObject.new hdr ttl now)) key =
        some (MoqGo.MoqObject.new hdr ttl now)) := by
  constructor
  · rintro ⟨o, ho, heof⟩
    simp [MoqGo.Create, ho, heof]
  · intro h
    refine ⟨?_, MoqGo.lookupA_insertA_self cache key _⟩
    unfold MoqGo.Create
    cases hl : MoqGo.lookupA cache key with
    | none => rfl
    | some o => simp [h o hl]

/-- Witness for C7: creating over an open (eof = false) entry fails and
leaves the cache unchanged; creating over an eof = true entry replaces it
and Get returns the fresh object. -/
theorem cache_create_spec_witness :
    (MoqGo.Create [([1], { header := {}, receivedAt := 0, maxAgeS := 60,
                           buffer := [9], eof := false })] [1] {} 60 5 =
      (.error "We can NOT override on open object",
       [([1], { header := {}, receivedAt := 0, maxAgeS := 60,
                buffer := [9], eof := false })])) ∧
    (MoqGo.Create [([1], { header := {}, receivedAt := 0, maxAgeS := 60,
                           buffer := [9], eof := true })] [1] {} 60 5 =
      (.ok (MoqGo.MoqObject.new {} 60 5),
       MoqGo.insertA [([1], { header := {}, receivedAt := 0, maxAgeS := 60,
                              buffer := [9], eof := true })] [1]
         (MoqGo.MoqObject.new {} 60 5)) ∧
     MoqGo.Get (MoqGo.insertA
         [([1], { header := {}, receivedAt := 0, maxAgeS := 60,
                  buffer := [9], eof := true })] [1]
         (MoqGo.MoqObject.new {} 60 5)) [1] =
       some (MoqGo.MoqObject.new {} 60 5)) :=
  ⟨(cache_create_spec _ [1] {} 60 5).1
     ⟨{ header := {}, receivedAt := 0, maxAgeS := 60, buffer := [9],
        eof := false }, by decide, by decide⟩,
   (cache_create_spec _ [1] {} 60 5).2 (by decide)⟩

/-- C10: the payload-copy loop of SendObject exits only when the Object
reader returns a non-nil result, which happens only once the eof flag is
set and the offset has reached the end of the buffer; a reader positioned
at the end of a non-EOF Object returns 0 bytes with no error; hence for an
Object whose eof flag is never set (and whose header varints are
representable, as every decoded header is), SendObject never terminates,
at any fuel. -/
theorem sendObject_no_eof_never_terminates (obj : MoqGo.MoqObject) :
    (∀ offset pLen, ((MoqGo.readerRead obj offset pLen).1.2 ≠ none →
      obj.eof = true ∧ obj.buffer.length ≤ offset)) ∧
    (obj.eof = false → ∀ offset pLen, obj.buffer.length ≤ offset →
      MoqGo.readerRead obj offset pLen = ((0, none), offset)) ∧
    (obj.eof = false → ∀ fuel offset acc,
      MoqGo.sendObjectLoop obj fuel offset acc = none) ∧
    (obj.eof = false →
      obj.header.trackId ≤ MoqGo.maxVarInt8 →
      obj.header.groupSequence ≤ MoqGo.maxVarInt8 →
      obj.header.objectSequence ≤ MoqGo.maxVarInt8 →
      obj.header.sendOrder ≤ MoqGo.maxVarInt8 →
      ∀ fuel, MoqGo.SendObject obj fuel = none) := by
  have hnoerr : obj.eof = false → ∀ offset pLen,
      (MoqGo.readerRead obj offset pLen).1.2 = none := by
    intro heof offset pLen
    unfold MoqGo.readerRead
    by_cases h : obj.buffer.length ≤ offset <;> simp [h, heof]
  have hloop : obj.eof = false → ∀ fuel offset acc,
      MoqGo.sendObjectLoop obj fuel offset acc = none := by
    intro heof fuel
    induction fuel with
    | zero => intro offset acc; rfl
    | succ n ih =>
      intro offset acc
      rcases hEq : MoqGo.readerRead obj offset MoqGo.READ_BLOCK_SIZE_BYTES with
        ⟨⟨rb, err⟩, off2⟩
      have herr : err = none := by
        have := hnoerr heof offset MoqGo.READ_BLOCK_SIZE_BYTES
        rw [hEq] at this
        exact this
      subst herr
      unfold MoqGo.sendObjectLoop
      rw [hEq]
      exact ih _ _
  refine ⟨?_, ?_, hloop, ?_⟩
  · intro offset pLen h
    unfold MoqGo.readerRead at h
    by_cases hb : obj.buffer.length ≤ offset
    · cases he : obj.eof
      · simp [hb, he] at h
      · exact ⟨rfl, hb⟩
    · simp [hb] at h
  · intro heof offset pLen hb
    unfold MoqGo.readerRead
    simp [hb, heof]
  · intro heof h1 h2 h3 h4 fuel
    obtain ⟨bs0, hb0⟩ := MoqGo.writeVarint_ok_of_le MoqGo.MoqIdMessageObject (by decide)
    obtain ⟨bs1, hb1⟩ := MoqGo.writeVarint_ok_of_le _ h1
    obtain ⟨bs2, hb2⟩ := MoqGo.writeVarint_ok_of_le _ h2
    obtain ⟨bs3, hb3⟩ := MoqGo.writeVarint_ok_of_le _ h3
    obtain ⟨bs4, hb4⟩ := MoqGo.writeVarint_ok_of_le _ h4
    unfold MoqGo.SendObject
    rw [hb0, hb1, hb2, hb3, hb4, hloop heof fuel 0 []]

/-- Witness for C10 at a concrete non-EOF object with a non-empty buffer:
the reader at the buffer end reports (0, no error), and SendObject returns
no result at fuel 5. -/
theorem sendObject_no_eof_never_terminates_witness :
    MoqGo.readerRead { header := { trackId := 7, groupSequence := 1,
                                   objectSequence := 2, sendOrder := 0 },
                       receivedAt := 0, maxAgeS := 60, buffer := [10, 11],
                       eof := false } 2 1024 = ((0, none), 2) ∧
    MoqGo.SendObject { header := { trackId := 7, groupSequence := 1,
                                   objectSequence := 2, sendOrder := 0 },
                       receivedAt := 0, maxAgeS := 60, buffer := [10, 11],
                       eof := false } 5 = none :=
  ⟨(sendObject_no_eof_never_terminates _).2.1 rfl 2 1024 (by decide),
   (sendObject_no_eof_never_terminates _).2.2.2 rfl (by decide) (by decide)
     (by decide) (by decide) 5⟩

/-! ## moqsession (moqsession.go) -/

namespace MoqGo

def MAX_PUBLISH_NAMESPACES_PER_SESSION : Nat := 256

def MAX_SUBSCRIBE_TRACKS_PER_SESSION : Nat := 256

/-- Go string literals are converted to byte lists character by character
(all the strings involved are ASCII). -/
def strToBytes (s : String) : Bytes := s.data.map Char.toNat

/-- `MoqMessageSubscribeExtended` (moqsession.go lines 40-45). -/
structure MoqMessageSubscribeExtended where
  subscribe : MoqMessageSubscribe
  trackId : Nat := 0
  expires : Nat := 0
  validated : Bool := false
deriving DecidableEq

/-- `MoqSubscribeChannelMessage` (moqsession.go lines 27-30). -/
structure MoqSubscribeChannelMessage where
  subscribe : MoqMessageSubscribe
  stop : Bool
deriving DecidableEq

/-- The payload of a subscribe-response channel message (Go
`interface{}`: a SUBSCRIBE_OK, a SUBSCRIBE_ERROR, or the `noOp` stop
payload). -/
inductive MoqSubscribeResponsePayload where
  | subscribeOk (m : MoqMessageSubscribeOk)
  | subscribeError (m : MoqMessageSubscribeError)
  | noOp
deriving DecidableEq

/-- `MoqSubscribeResponseChannelMessage` (moqsession.go lines 34-38). -/
structure MoqSubscribeResponseChannelMessage where
  moqSubscribeResponse : MoqSubscribeResponsePayload
  subscribeMessageType : Nat
  stop : Bool
deriving DecidableEq

/-- `MoqSession` (moqsession.go lines 47-75); the maps are association
lists and the three channels are FIFO lists. -/
structure MoqSession where
  uniqueName : Bytes := []
  version : Nat := 0
  role : Nat := 0
  namespaces : List (Bytes × List (Nat × Bytes)) := []
  channelSubscribe : List MoqSubscribeChannelMessage := []
  channelSubscribeResponse : List MoqSubscribeResponseChannelMessage := []
  tracks : List (Bytes × MoqMessageSubscribeExtended) := []
  channelObject : List Bytes := []
deriving DecidableEq

/-- `MoqSession.AddTrackNamespace` (moqsession.go lines 84-93): cap check,
then `s.namespaces[announce.TrackNamespace] = map[uint64]string{}`. -/
def MoqSession.AddTrackNamespace (s : MoqSession) (announce : MoqMessageAnnounce) :
    Except String MoqSession :=
  if s.role = MoqRolePublisher ∧
      s.namespaces.length > MAX_PUBLISH_NAMESPACES_PER_SESSION then
    .error "Max publish namespaces per session reached, can NOT add a new track"
  else
    .ok { s with namespaces := insertA s.namespaces announce.trackNamespace [] }

/-- `MoqSession.HasTrackNamespace` (moqsession.go lines 108-114). -/
def MoqSession.HasTrackNamespace (s : MoqSession) (trackNamespace : Bytes) : Bool :=
  (lookupA s.namespaces trackNamespace).isSome

/-- `MoqSession.AddTrackInfo` (moqsession.go lines 116-127): writes
through the inner map of the found namespace. -/
def MoqSession.AddTrackInfo (s : MoqSession) (trackNamespace trackName : Bytes)
    (trackId : Nat) : Except String MoqSession :=
  match lookupA s.namespaces trackNamespace with
  | some namespaceInfo =>
    .ok { s with
          namespaces := insertA s.namespaces trackNamespace
            (insertA namespaceInfo trackId trackName) }
  | none => .error "Could NOT find track namespace to add track"

/-- Inner loop of `GetTrackInfo`: scan one namespace's trackId→trackName
map. -/
def getTrackInfoScanInner (trackNamespaceItem : Bytes)
    (trackInfoItem : List (Nat × Bytes)) (trackId : Nat) :
    Option (Bytes × Bytes) :=
  match trackInfoItem with
  | [] => none
  | (trackIdItem, trackNameItem) :: rest =>
    if trackIdItem = trackId then some (trackNamespaceItem, trackNameItem)
    else getTrackInfoScanInner trackNamespaceItem rest trackId

/-- Outer loop of `GetTrackInfo`: scan all namespaces. -/
def getTrackInfoScan (namespaces : List (Bytes × List (Nat × Bytes)))
    (trackId : Nat) : Option (Bytes × Bytes) :=
  match namespaces with
  | [] => none
  | (trackNamespaceItem, trackInfoItem) :: rest =>
    match getTrackInfoScanInner trackNamespaceItem trackInfoItem trackId with
    | some r => some r
    | none => getTrackInfoScan rest trackId

/-- `MoqSession.GetTrackInfo` (moqsession.go lines 129-145): linear scan
over namespaces × tracks; returns (found, namespace, name) with Go zero
values when not found. -/
def MoqSession.GetTrackInfo (s : MoqSession) (trackId : Nat) :
    Bool × Bytes × Bytes :=
  match getTrackInfoScan s.namespaces trackId with
  | some (trackNamespace, trackName) => (true, trackNamespace, trackName)
  | none => (false, [], [])

/-- `MoqSession.AddSubscribeRequest` (moqsession.go lines 167-178); the
map key is `TrackNamespace + "/" + TrackName` (byte 47 is the slash). -/
def MoqSession.AddSubscribeRequest (s : MoqSession)
    (subscribe : MoqMessageSubscribe) : Except String MoqSession :=
  if s.role = MoqRoleSubscriber ∧
      s.tracks.length > MAX_SUBSCRIBE_TRACKS_PER_SESSION then
    .error "Max subscribe tracks per session reached, can NOT add a new track"
  else
    .ok { s with
          tracks := insertA s.tracks
            (subscribe.trackNamespace ++ [47] ++ subscribe.trackName)
            { subscribe := subscribe, trackId := 0, expires := 0,
              validated := false } }

/-- `MoqSession.HasPendingTrackSubscriptionUpdate` (moqsession.go lines
180-195). The Go code reads the struct value out of the map (a copy),
mutates the copy's `validated`, `trackId` and `expires` fields, and never
stores the copy back into `s.tracks`; the returned session is therefore
the unchanged one. -/
def MoqSession.HasPendingTrackSubscriptionUpdate (s : MoqSession)
    (trackNamespace trackName : Bytes) (trackId expires : Nat) :
    Bool × MoqSession :=
  match lookupA s.tracks (trackNamespace ++ [47] ++ trackName) with
  | some subscribeExt =>
    if subscribeExt.validated = false then
      -- the mutated local copy of the map value, discarded by Go's value
      -- semantics
      have _updatedCopy := { subscribeExt with
        validated := true, trackId := trackId, expires := expires }
      (true, s)
    else (false, s)
  | none => (false, s)

/-- `MoqSession.ForwardSubscribe` (moqsession.go lines 224-228): enqueue
on the subscribe channel. -/
def MoqSession.ForwardSubscribe (s : MoqSession)
    (subscribe : MoqMessageSubscribe) : MoqSession :=
  { s with channelSubscribe :=
      s.channelSubscribe ++ [{ subscribe := subscribe, stop := false }] }

/-- `MoqSession.ForwardSubscribeResponseOk` (moqsession.go lines 245-249):
enqueue with tag `MoqIdSubscribeOk`. -/
def MoqSession.ForwardSubscribeResponseOk (s : MoqSession)
    (subscribeOk : MoqMessageSubscribeOk) : MoqSession :=
  { s with channelSubscribeResponse :=
      s.channelSubscribeResponse ++
        [{ moqSubscribeResponse := .subscribeOk subscribeOk,
           subscribeMessageType := MoqIdSubscribeOk, stop := false }] }

/-- `MoqSession.ForwardSubscribeResponseError` (moqsession.go lines
251-255): enqueue with tag `MoqIdSubscribeError`. -/
def MoqSession.ForwardSubscribeResponseError (s : MoqSession)
    (subscribeError : MoqMessageSubscribeError) : MoqSession :=
  { s with channelSubscribeResponse :=
      s.channelSubscribeResponse ++
        [{ moqSubscribeResponse := .subscribeError subscribeError,
           subscribeMessageType := MoqIdSubscribeError, stop := false }] }

end MoqGo

/-! ## moqfwdtable (moqfwdtable.go) -/

namespace MoqGo

/-- The forwarding table's `sessions` map. -/
abbrev MoqFwdTable := List (Bytes × MoqSession)

/-- `MoqFwdTable.ForwardSubscribe` (moqfwdtable.go lines 74-105): pass 1
enqueues on every Publisher session holding the namespace; pass 2 (only
when pass 1 found none) on every Both session holding it; with no match
the routing error is returned and the table is untouched. -/
def MoqFwdTable.ForwardSubscribe (mft : MoqFwdTable)
    (subscribe : MoqMessageSubscribe) : MoqFwdTable × Option String :=
  if mft.any (fun p => p.2.role = MoqRolePublisher ∧
      p.2.HasTrackNamespace subscribe.trackNamespace) then
    (mft.map (fun p =>
      if p.2.role = MoqRolePublisher ∧
          p.2.HasTrackNamespace subscribe.trackNamespace then
        (p.1, p.2.ForwardSubscribe subscribe)
      else p), none)
  else if mft.any (fun p => p.2.role = MoqRoleBoth ∧
      p.2.HasTrackNamespace subscribe.trackNamespace) then
    (mft.map (fun p =>
      if p.2.role = MoqRoleBoth ∧
          p.2.HasTrackNamespace subscribe.trackNamespace then
        (p.1, p.2.ForwardSubscribe subscribe)
      else p), none)
  else (mft, some "We could NOT find any publishers for TrackNamespace")

/-- Per-session step of `MoqFwdTable.ForwardSubscribeOk` (moqfwdtable.go
lines 114-122). -/
def forwardSubscribeOkStep (subscribeOk : MoqMessageSubscribeOk)
    (session : MoqSession) : MoqSession :=
  if session.role = MoqRoleSubscriber ∨ session.role = MoqRoleBoth then
    match session.HasPendingTrackSubscriptionUpdate subscribeOk.trackNamespace
      subscribeOk.trackName subscribeOk.trackId subscribeOk.expires with
    | (updated, session1) =>
      if updated then session1.ForwardSubscribeResponseOk subscribeOk
      else session1
  else session

/-- `MoqFwdTable.ForwardSubscribeOk` (moqfwdtable.go lines 107-129): every
Subscriber/Both session with an unvalidated pending entry gets the
SUBSCRIBE_OK enqueued; with no match the routing error is returned. -/
def MoqFwdTable.ForwardSubscribeOk (mft : MoqFwdTable)
    (subscribeOk : MoqMessageSubscribeOk) : MoqFwdTable × Option String :=
  (mft.map (fun p => (p.1, forwardSubscribeOkStep subscribeOk p.2)),
   if mft.any (fun p =>
       (p.2.role = MoqRoleSubscriber ∨ p.2.role = MoqRoleBoth) ∧
       (p.2.HasPendingTrackSubscriptionUpdate subscribeOk.trackNamespace
         subscribeOk.trackName subscribeOk.trackId subscribeOk.expires).1) then
     none
   else some "We could NOT find any publishers for")

end MoqGo

/-! ## moqconnectionmanagment (moqconnectionmanagment.go) -/

namespace MoqGo

/-- `processSubscribe` (moqconnectionmanagment.go lines 209-264): the
returned tuple is (session-terminating error, session, forwarding table,
bytes written on the control stream). A non-zero error code makes the
control loop (lines 107-111) break and terminate the session. -/
def processSubscribe (moqMsg : MoqMessage) (moqSession : MoqSession)
    (moqtFwdTable : MoqFwdTable) :
    MoqError × MoqSession × MoqFwdTable × Bytes :=
  match moqMsg with
  | .subscribe moqSubscribe =>
    if moqSession.role ≠ MoqRoleSubscriber then
      ({ errCode := ErrorProtocolViolation,
         errMsg := "Error received SUBSCRIBE from NON subscriber" },
       moqSession, moqtFwdTable, [])
    else
      match moqSession.AddSubscribeRequest moqSubscribe with
      | .error _ =>
        match SendSubscribeError
            { errCode := ErrorSubscribeAddingTrack,
              errMsg := strToBytes "Error Adding new subscription on SUBSCRIBE" } with
        | .ok bs => ({}, moqSession, moqtFwdTable, bs)
        | .error _ =>
          ({ errCode := ErrorGeneric, errMsg := "Error sending SUBSCRIBE error" },
           moqSession, moqtFwdTable, [])
      | .ok session2 =>
        match moqtFwdTable.ForwardSubscribe moqSubscribe with
        | (table2, none) => ({}, session2, table2, [])
        | (table2, some e) =>
          match SendSubscribeError
              { errCode := ErrorSubscribeNoPublishers, errMsg := strToBytes e } with
          | .ok bs => ({}, session2, table2, bs)
          | .error _ =>
            ({ errCode := ErrorGeneric, errMsg := "Error sending SUBSCRIBE error" },
             session2, table2, [])
  | _ =>
    ({ errCode := ErrorProtocolViolation, errMsg := "Error casting SUBSCRIBE" },
     moqSession, moqtFwdTable, [])

/-- `processSubscribeOk` (moqconnectionmanagment.go lines 266-309): a
failing `ForwardSubscribeOk` (or `AddTrackInfo`) sets the session error
to `ErrorGeneric` — breaking the control loop — and nothing is written on
the control stream. -/
def processSubscribeOk (moqMsg : MoqMessage) (moqSession : MoqSession)
    (moqtFwdTable : MoqFwdTable) :
    MoqError × MoqSession × MoqFwdTable × Bytes :=
  match moqMsg with
  | .subscribeOk moqSubscribeOk =>
    if moqSession.role ≠ MoqRolePublisher then
      ({ errCode := ErrorProtocolViolation,
         errMsg := "Error received SUBSCRIBE OK from NON publisher" },
       moqSession, moqtFwdTable, [])
    else
      match moqtFwdTable.ForwardSubscribeOk moqSubscribeOk with
      | (table2, some e) =>
        ({ errCode := ErrorGeneric, errMsg := e }, moqSession, table2, [])
      | (table2, none) =>
        match moqSession.AddTrackInfo moqSubscribeOk.trackNamespace
            moqSubscribeOk.trackName moqSubscribeOk.trackId with
        | .error e2 => ({ errCode := ErrorGeneric, errMsg := e2 }, moqSession, table2, [])
        | .ok session2 => ({}, session2, table2, [])
  | _ =>
    ({ errCode := ErrorProtocolViolation, errMsg := "Error casting SUBSCRIBE OK" },
     moqSession, moqtFwdTable, [])

/-- What one iteration of the response-out worker does with a dequeued
message. -/
inductive SubscribeResponseAction where
  | exited
  | wrote (bs : Bytes)
  | logged
deriving DecidableEq

/-- One iteration of `startForwardSubscribeResponses`
(moqconnectionmanagment.go lines 370-396) on a dequeued channel message:
exit on the stop sentinel; write a SUBSCRIBE_OK when the tag is
`MoqIdSubscribeOk`; write a SUBSCRIBE_ERROR when the tag is
`MoqIdMessageAnnounceError` (source line 382 compares against 0x08, not
`MoqIdSubscribeError` 0x05); otherwise log the unsupported tag (or a send
failure) and write nothing. -/
def startForwardSubscribeResponsesStep
    (msg : MoqSubscribeResponseChannelMessage) : SubscribeResponseAction :=
  if msg.stop then .exited
  else if msg.subscribeMessageType = MoqIdSubscribeOk then
    match msg.moqSubscribeResponse with
    | .subscribeOk m =>
      match SendSubscribeOk m with
      | .ok bs => .wrote bs
      | .error _ => .logged
    | _ => .logged
  else if msg.subscribeMessageType = MoqIdMessageAnnounceError then
    match msg.moqSubscribeResponse with
    | .subscribeError m =>
      match SendSubscribeError m with
      | .ok bs => .wrote bs
      | .error _ => .logged
    | _ => .logged
  else .logged

end MoqGo

/-! ### Session-layer lemmas and claim theorems -/

namespace MoqGo

lemma mem_insertA_key {α β : Type} [DecidableEq α]
    (l : List (α × β)) (k : α) (v : β) (p : α × β)
    (hmem : p ∈ insertA l k v) (hkey : p.1 = k) : p = (k, v) := by
  unfold insertA at hmem
  by_cases h : l.any (fun q => q.1 = k)
  · rw [if_pos h] at hmem
    obtain ⟨q, _, hq⟩ := List.mem_map.mp hmem
    by_cases hqk : q.1 = k
    · rw [if_pos hqk] at hq
      exact hq.symm
    · rw [if_neg hqk] at hq
      exact absurd (hq ▸ hkey) hqk
  · rw [if_neg h] at hmem
    rcases List.mem_append.mp hmem with hin | hsing
    · exfalso
      apply h
      exact List.any_eq_true.mpr ⟨p, hin, by simpa using hkey⟩
    · simpa using hsing

lemma getTrackInfoScanInner_mem (ns : Bytes) (l : List (Nat × Bytes))
    (tid : Nat) (nsR nm : Bytes)
    (h : getTrackInfoScanInner ns l tid = some (nsR, nm)) :
    nsR = ns ∧ (tid, nm) ∈ l := by
  induction l with
  | nil => simp [getTrackInfoScanInner] at h
  | cons p rest ih =>
    obtain ⟨pid, pnm⟩ := p
    unfold getTrackInfoScanInner at h
    by_cases hp : pid = tid
    · rw [if_pos hp] at h
      have h' := Option.some.inj h
      have hns : ns = nsR := congrArg Prod.fst h'
      have hnm : pnm = nm := congrArg Prod.snd h'
      refine ⟨hns.symm, ?_⟩
      subst hp
      subst hnm
      exact List.mem_cons_self _ _
    · rw [if_neg hp] at h
      obtain ⟨h1, h2⟩ := ih h
      exact ⟨h1, List.mem_cons_of_mem _ h2⟩

lemma getTrackInfoScan_mem (l : List (Bytes × List (Nat × Bytes)))
    (tid : Nat) (nsR nm : Bytes)
    (h : getTrackInfoScan l tid = some (nsR, nm)) :
    ∃ tracks, (nsR, tracks) ∈ l ∧ (tid, nm) ∈ tracks := by
  induction l with
  | nil => simp [getTrackInfoScan] at h
  | cons p rest ih =>
    obtain ⟨pns, ptracks⟩ := p
    unfold getTrackInfoScan at h
    cases hin : getTrackInfoScanInner pns ptracks tid with
    | some r =>
      rw [hin] at h
      have hr : r = (nsR, nm) := Option.some.inj h
      subst hr
      obtain ⟨hns, hmem⟩ := getTrackInfoScanInner_mem pns ptracks tid nsR nm hin
      exact ⟨ptracks, by simp [hns], hmem⟩
    | none =>
      rw [hin] at h
      obtain ⟨tracks, hmem, htid⟩ := ih h
      exact ⟨tracks, List.mem_cons_of_mem _ hmem, htid⟩

end MoqGo

/-- The concrete session used for C4: Subscriber role, one pending
(unvalidated) subscription for namespace "n" ([110]) and track "t"
([116]). -/
def pendingSessionExample : MoqGo.MoqSession :=
  { role := MoqGo.MoqRoleSubscriber,
    tracks := [([110, 47, 116],
      { subscribe := { trackNamespace := [110], trackName := [116] } })] }

/-- C4: validatePendingSubscription (HasPendingTrackSubscriptionUpdate)
returns true for an unvalidated pending entry, but the validated flag is
set only on a local copy of the map value and never stored back, so the
session is unchanged and an immediately repeated call on the same session
returns true again — the claim says it must return false. -/
theorem pendingValidation_lost_on_copy :
    (pendingSessionExample.HasPendingTrackSubscriptionUpdate
      [110] [116] 7 9).1 = true ∧
    (pendingSessionExample.HasPendingTrackSubscriptionUpdate
      [110] [116] 7 9).2 = pendingSessionExample ∧
    (((pendingSessionExample.HasPendingTrackSubscriptionUpdate
      [110] [116] 7 9).2).HasPendingTrackSubscriptionUpdate
      [110] [116] 7 9).1 = true := by
  refine ⟨by decide, by decide, by decide⟩

/-- The concrete session used for C9's counterexample: a Publisher holding
257 distinct namespaces, the first of which ([0,0]) has one registered
track (trackId 7 → name [116]). -/
def manyNamespacesSession : MoqGo.MoqSession :=
  { role := MoqGo.MoqRolePublisher,
    namespaces := ([0, 0], [(7, [116])]) ::
      (List.range 256).map (fun i => ([(i + 1) % 256, (i + 1) / 256], [])) }

/-- C9 counterexample: AddTrackNamespace for a namespace the session
already holds does NOT unconditionally replace its mapping — with role
Publisher and more than 256 namespaces it fails, leaving the previously
recorded track of that namespace findable through GetTrackInfo. -/
theorem addTrackNamespace_not_unconditional :
    manyNamespacesSession.namespaces.length = 257 ∧
    MoqGo.lookupA manyNamespacesSession.namespaces [0, 0] = some [(7, [116])] ∧
    manyNamespacesSession.AddTrackNamespace { trackNamespace := [0, 0] } =
      .error "Max publish namespaces per session reached, can NOT add a new track" ∧
    manyNamespacesSession.GetTrackInfo 7 = (true, [0, 0], [116]) := by
  set_option maxRecDepth 4096 in
  refine ⟨by decide, by decide, by decide, by decide⟩

/-- C9 (amended): below the namespace cap (role ≠ Publisher or at most 256
namespaces held), AddTrackNamespace for a namespace the session already
holds replaces that namespace's trackId→trackName mapping with an empty
map, so after a duplicate ANNOUNCE, GetTrackInfo no longer finds any
trackId of that namespace; with role Publisher and more than 256
namespaces the call fails instead. -/
theorem addTrackNamespace_duplicate_resets (s : MoqGo.MoqSession)
    (announce : MoqGo.MoqMessageAnnounce)
    (_hheld : s.HasTrackNamespace announce.trackNamespace = true)
    (hcap : ¬(s.role = MoqGo.MoqRolePublisher ∧
      s.namespaces.length > MoqGo.MAX_PUBLISH_NAMESPACES_PER_SESSION)) :
    ∃ s2, s.AddTrackNamespace announce = .ok s2 ∧
      MoqGo.lookupA s2.namespaces announce.trackNamespace = some [] ∧
      ∀ tid nm, s2.GetTrackInfo tid ≠ (true, announce.trackNamespace, nm) := by
  refine ⟨{ s with
            namespaces := MoqGo.insertA s.namespaces
              announce.trackNamespace [] }, ?_, ?_, ?_⟩
  · unfold MoqGo.MoqSession.AddTrackNamespace
    rw [if_neg hcap]
  · exact MoqGo.lookupA_insertA_self s.namespaces announce.trackNamespace []
  · intro tid nm hEq
    unfold MoqGo.MoqSession.GetTrackInfo at hEq
    cases hscan : MoqGo.getTrackInfoScan
        (MoqGo.insertA s.namespaces announce.trackNamespace []) tid with
    | none => rw [hscan] at hEq; simp at hEq
    | some pr =>
      obtain ⟨nsR, nmR⟩ := pr
      rw [hscan] at hEq
      simp only [Prod.mk.injEq, true_and] at hEq
      obtain ⟨hns, hnm⟩ := hEq
      obtain ⟨tracks, hmem, htid⟩ :=
        MoqGo.getTrackInfoScan_mem _ tid nsR nmR hscan
      have := MoqGo.mem_insertA_key s.namespaces announce.trackNamespace []
        (nsR, tracks) hmem (by simpa using hns)
      have htr : tracks = ([] : List (Nat × MoqGo.Bytes)) :=
        congrArg Prod.snd this
      rw [htr] at htid
      simp at htid

/-- The concrete session for C9's witness: a Publisher holding one
namespace [5] with one registered track. -/
def singleNamespaceSession : MoqGo.MoqSession :=
  { role := MoqGo.MoqRolePublisher, namespaces := [([5], [(7, [9])])] }

/-- Witness for C9's amended theorem: the Publisher re-announces [5]; the
mapping is reset and the track is gone. -/
theorem addTrackNamespace_duplicate_resets_witness :
    ∃ s2, singleNamespaceSession.AddTrackNamespace { trackNamespace := [5] } =
        .ok s2 ∧
      MoqGo.lookupA s2.namespaces [5] = some [] ∧
      ∀ tid nm, s2.GetTrackInfo tid ≠ (true, [5], nm) :=
  addTrackNamespace_duplicate_resets singleNamespaceSession
    { trackNamespace := [5] } (by decide) (by decide)

/-- C6: the response-out worker writes a SUBSCRIBE_OK for tag 0x04 and
exits on the stop sentinel, but it never writes a SUBSCRIBE_ERROR for the
tag the session's enqueue operation uses: ForwardSubscribeResponseError
enqueues with tag MoqIdSubscribeError (0x05), while the worker's error
branch (moqconnectionmanagment.go line 382) compares the tag against
MoqIdMessageAnnounceError (0x08), so every dequeued error response falls
into the unsupported-tag branch and only gets logged. -/
theorem responseWorker_drops_subscribe_errors :
    (∀ (s : MoqGo.MoqSession) (e : MoqGo.MoqMessageSubscribeError),
      (s.ForwardSubscribeResponseError e).channelSubscribeResponse =
        s.channelSubscribeResponse ++
          [{ moqSubscribeResponse := .subscribeError e,
             subscribeMessageType := MoqGo.MoqIdSubscribeError, stop := false }]) ∧
    (∀ e : MoqGo.MoqMessageSubscribeError,
      MoqGo.startForwardSubscribeResponsesStep
        { moqSubscribeResponse := .subscribeError e,
          subscribeMessageType := MoqGo.MoqIdSubscribeError, stop := false } =
        .logged) ∧
    (∀ (m : MoqGo.MoqMessageSubscribeOk) (bs : MoqGo.Bytes),
      MoqGo.SendSubscribeOk m = .ok bs →
      MoqGo.startForwardSubscribeResponsesStep
        { moqSubscribeResponse := .subscribeOk m,
          subscribeMessageType := MoqGo.MoqIdSubscribeOk, stop := false } =
        .wrote bs) ∧
    (∀ (p : MoqGo.MoqSubscribeResponsePayload) (t : Nat),
      MoqGo.startForwardSubscribeResponsesStep
        { moqSubscribeResponse := p, subscribeMessageType := t, stop := true } =
        .exited) := by
  refine ⟨fun s e => rfl, fun e => ?_, fun m bs h => ?_, fun p t => rfl⟩
  · simp [MoqGo.startForwardSubscribeResponsesStep, MoqGo.MoqIdSubscribeOk,
      MoqGo.MoqIdSubscribeError, MoqGo.MoqIdMessageAnnounceError]
  · simp [MoqGo.startForwardSubscribeResponsesStep, MoqGo.MoqIdSubscribeOk, h]

/-- Witness for C6's theorem: a concrete error response enqueued by the
session carries tag 0x05 and the worker only logs it; a concrete
SUBSCRIBE_OK is written; the stop sentinel exits. -/
theorem responseWorker_drops_subscribe_errors_witness :
    (({} : MoqGo.MoqSession).ForwardSubscribeResponseError
        { errCode := 3 }).channelSubscribeResponse =
      [{ moqSubscribeResponse := .subscribeError { errCode := 3 },
         subscribeMessageType := MoqGo.MoqIdSubscribeError, stop := false }] ∧
    MoqGo.startForwardSubscribeResponsesStep
      { moqSubscribeResponse := .subscribeError { errCode := 3 },
        subscribeMessageType := MoqGo.MoqIdSubscribeError, stop := false } =
      .logged ∧
    MoqGo.startForwardSubscribeResponsesStep
      { moqSubscribeResponse := .subscribeOk {},
        subscribeMessageType := MoqGo.MoqIdSubscribeOk, stop := false } =
      .wrote [4, 0, 0, 0, 0] ∧
    MoqGo.startForwardSubscribeResponsesStep
      { moqSubscribeResponse := .noOp,
        subscribeMessageType := MoqGo.InternalId, stop := true } = .exited :=
  ⟨responseWorker_drops_subscribe_errors.1 {} { errCode := 3 },
   responseWorker_drops_subscribe_errors.2.1 { errCode := 3 },
   responseWorker_drops_subscribe_errors.2.2.1 {} [4, 0, 0, 0, 0] (by decide),
   responseWorker_drops_subscribe_errors.2.2.2 .noOp MoqGo.InternalId⟩

/-- The concrete Publisher session used for C8's counterexample. -/
def pubSessionExample : MoqGo.MoqSession := { role := MoqGo.MoqRolePublisher }

/-- C8 counterexample: with an empty forwarding table, forwardSubscribeOk
fails with the no-matching-subscribers routing error, and processSubscribeOk
turns it into a session error with code ErrorGeneric (so the control loop
breaks and the connection is terminated) with no SUBSCRIBE_ERROR written —
the claim says the failure is reported as SUBSCRIBE_ERROR and the session
continues. -/
theorem processSubscribeOk_breaks_session_on_no_match :
    MoqGo.processSubscribeOk
        (.subscribeOk { trackNamespace := [110], trackName := [116],
                        trackId := 7, expires := 0 })
        pubSessionExample [] =
      ({ errCode := MoqGo.ErrorGeneric,
         errMsg := "We could NOT find any publishers for" },
       pubSessionExample, [], []) ∧
    MoqGo.ErrorGeneric ≠ MoqGo.NoError := by
  refine ⟨by decide, by decide⟩

/-- C8 (amended): a routing failure of forwardSubscribe (NoPublishers) is
reported to the peer as a SUBSCRIBE_ERROR message (code
ErrorSubscribeNoPublishers) on the control stream and the session error
stays NoError, so the control loop continues; but a routing failure of
forwardSubscribeOk (NoMatchingSubscribers) sets the session error to
ErrorGeneric — terminating the session — and writes nothing. -/
theorem routingErrors_subscribe_vs_subscribeOk :
    (∀ (sub : MoqGo.MoqMessageSubscribe) (sess sess2 : MoqGo.MoqSession)
        (tbl tbl2 : MoqGo.MoqFwdTable) (e : String),
      sess.role = MoqGo.MoqRoleSubscriber →
      sess.AddSubscribeRequest sub = .ok sess2 →
      tbl.ForwardSubscribe sub = (tbl2, some e) →
      ∃ bs, MoqGo.SendSubscribeError
          { errCode := MoqGo.ErrorSubscribeNoPublishers,
            errMsg := MoqGo.strToBytes e } = .ok bs ∧
        bs.head? = some MoqGo.MoqIdSubscribeError ∧
        MoqGo.processSubscribe (.subscribe sub) sess tbl =
          ({}, sess2, tbl2, bs)) ∧
    (∀ (subOk : MoqGo.MoqMessageSubscribeOk) (sess : MoqGo.MoqSession)
        (tbl tbl2 : MoqGo.MoqFwdTable) (e : String),
      sess.role = MoqGo.MoqRolePublisher →
      tbl.ForwardSubscribeOk subOk = (tbl2, some e) →
      MoqGo.processSubscribeOk (.subscribeOk subOk) sess tbl =
        ({ errCode := MoqGo.ErrorGeneric, errMsg := e }, sess, tbl2, []) ∧
      MoqGo.ErrorGeneric ≠ MoqGo.NoError) := by
  constructor
  · intro sub sess sess2 tbl tbl2 e hrole hadd hfwd
    have h5 : MoqGo.WriteVarint MoqGo.MoqIdSubscribeError = .ok [5] := by decide
    have h3 : MoqGo.WriteVarint MoqGo.ErrorSubscribeNoPublishers = .ok [3] := by
      decide
    have hsse : MoqGo.SendSubscribeError
        { errCode := MoqGo.ErrorSubscribeNoPublishers,
          errMsg := MoqGo.strToBytes e } =
        .ok ([5] ++ MoqGo.WriteString [] ++ MoqGo.WriteString [] ++ [3] ++
             MoqGo.WriteString (MoqGo.strToBytes e)) := by
      simp [MoqGo.SendSubscribeError, h5, h3]
    refine ⟨_, hsse, by simp [MoqGo.WriteString, MoqGo.MoqIdSubscribeError], ?_⟩
    simp only [MoqGo.processSubscribe, hrole, hadd, hfwd, hsse]
    simp
  · intro subOk sess tbl tbl2 e hrole hfwd
    refine ⟨?_, by decide⟩
    simp only [MoqGo.processSubscribeOk, hrole, hfwd]
    simp

/-- The concrete Subscriber session used for C8's witness. -/
def subSessionExample : MoqGo.MoqSession := { role := MoqGo.MoqRoleSubscriber }

/-- The session state after C8's witness subscribe is recorded. -/
def subSessionExampleAfter : MoqGo.MoqSession :=
  { role := MoqGo.MoqRoleSubscriber,
    tracks := [([120, 47, 97],
      { subscribe := { trackNamespace := [120], trackName := [97] } })] }

/-- Witness for C8's amended theorem, on an empty forwarding table: the
subscribe path sends a SUBSCRIBE_ERROR and keeps the session error at
NoError; the subscribe-ok path returns the ErrorGeneric session error and
writes nothing. -/
theorem routingErrors_subscribe_vs_subscribeOk_witness :
    (∃ bs, MoqGo.SendSubscribeError
        { errCode := MoqGo.ErrorSubscribeNoPublishers,
          errMsg := MoqGo.strToBytes
            "We could NOT find any publishers for TrackNamespace" } = .ok bs ∧
      bs.head? = some MoqGo.MoqIdSubscribeError ∧
      MoqGo.processSubscribe
          (.subscribe { trackNamespace := [120], trackName := [97] })
          subSessionExample [] =
        ({}, subSessionExampleAfter, [], bs)) ∧
    (MoqGo.processSubscribeOk
        (.subscribeOk { trackNamespace := [120], trackName := [97],
                        trackId := 9, expires := 0 })
        pubSessionExample [] =
      ({ errCode := MoqGo.ErrorGeneric,
         errMsg := "We could NOT find any publishers for" },
       pubSessionExample, [], []) ∧
     MoqGo.ErrorGeneric ≠ MoqGo.NoError) :=
  ⟨routingErrors_subscribe_vs_subscribeOk.1
     { trackNamespace := [120], trackName := [97] }
     subSessionExample subSessionExampleAfter [] []
     "We could NOT find any publishers for TrackNamespace"
     (by decide) (by decide) (by decide),
   routingErrors_subscribe_vs_subscribeOk.2
     { trackNamespace := [120], trackName := [97], trackId := 9, expires := 0 }
     pubSessionExample [] [] "We could NOT find any publishers for"
     (by decide) (by decide)⟩

/-! Sanity checks for the varint codec on the spec's boundary cases. -/

example : MoqGo.WriteVarint 63 = .ok [63] := by decide
example : MoqGo.WriteVarint 64 = .ok [0x40, 64] := by decide
example : MoqGo.ReadVarint [0x40, 64] = .ok (64, []) := by decide
example : MoqGo.ReadVarint [0x7f, 0xff] = .ok (16383, []) := by decide
example : (MoqGo.WriteVarint 16384).map List.length = .ok 4 := by decide
example : (MoqGo.WriteVarint 1073741824).map List.length = .ok 8 := by decide
